import Mathlib

/-!
Shallow embedding of the `wasp` WebAssembly module validator
(`src/valid/validate.cc`, given as `src/unnamed/part_001`).  Each C++
`Validate` overload mutates a `Context` and returns a `bool`; here each
becomes a pure function `... → Context → Bool × Context`.  The error sink
(`Errors::OnError`) is modelled as a list of message strings appended to the
context; the `ErrorsContextGuard` breadcrumbs only decorate messages and are
dropped.  `std::set` fields are modelled as duplicate-free lists with an
insert-if-absent operation.  C++ `vector` indexing (always guarded by an
index check in the source) is modelled with `List.getD`.
-/

namespace Wasp

/-- Index is `u32` in the source; range checks are explicit comparisons, so
`Nat` is adequate. -/
abbrev Index := Nat

inductive ValueType
  | I32
  | I64
  | F32
  | F64
  | V128
  | Funcref
  | Externref
  | Nullref
deriving DecidableEq

inductive ReferenceType
  | Funcref
  | Externref
  | Nullref
deriving DecidableEq

/-- Embeds `ToValueType(ReferenceType)` from the binary headers. -/
def ToValueType : ReferenceType → ValueType
  | ReferenceType.Funcref => ValueType.Funcref
  | ReferenceType.Externref => ValueType.Externref
  | ReferenceType.Nullref => ValueType.Nullref

inductive Mutability
  | Const
  | Var
deriving DecidableEq

inductive Shared
  | No
  | Yes
deriving DecidableEq

inductive ExternalKind
  | Function
  | Table
  | Memory
  | Global
  | Event
deriving DecidableEq

structure Limits where
  min : Nat
  max : Option Nat
  shared : Shared
deriving DecidableEq

structure MemoryType where
  limits : Limits
deriving DecidableEq

structure TableType where
  limits : Limits
  elemtype : ReferenceType
deriving DecidableEq

structure GlobalType where
  valtype : ValueType
  mutability : Mutability
deriving DecidableEq

structure FunctionType where
  param_types : List ValueType
  result_types : List ValueType
deriving DecidableEq

structure TypeEntry where
  type : FunctionType
deriving DecidableEq

structure Function where
  type_index : Index
deriving DecidableEq

structure EventType where
  type_index : Index
deriving DecidableEq

structure Event where
  event_type : EventType
deriving DecidableEq

/-- An instruction as the constant/element-expression validators see it: the
opcode together with the immediate the validator extracts for it.  Every
opcode outside the constant-expression subset hits the `default` case of the
validator switches and is collapsed to `OtherInstr`. -/
inductive Instruction
  | I32Const (value : Int)
  | I64Const (value : Int)
  | F32Const
  | F64Const
  | GlobalGet (index : Index)
  | RefNull (reftype : ReferenceType)
  | RefFunc (index : Index)
  | OtherInstr
deriving DecidableEq

structure ConstantExpression where
  instructions : List Instruction
deriving DecidableEq

structure ElementExpression where
  instructions : List Instruction
deriving DecidableEq

inductive ConstantExpressionKind
  | GlobalInit
  | Other
deriving DecidableEq

structure Global where
  global_type : GlobalType
  init : ConstantExpression
deriving DecidableEq

structure Memory where
  memory_type : MemoryType
deriving DecidableEq

structure Table where
  table_type : TableType
deriving DecidableEq

structure Export where
  kind : ExternalKind
  name : String
  index : Index
deriving DecidableEq

structure Start where
  func_index : Index
deriving DecidableEq

structure DataCount where
  count : Nat
deriving DecidableEq

structure DataSegment where
  memory_index : Option Index
  offset : Option ConstantExpression
deriving DecidableEq

/-- The element list of a segment: either external-kind-tagged indices or a
list of element expressions (`has_indexes` / `has_expressions` in the
source). -/
inductive ElementListDesc
  | indexes (kind : ExternalKind) (list : List Index)
  | expressions (elemtype : ReferenceType) (list : List ElementExpression)
deriving DecidableEq

structure ElementSegment where
  table_index : Option Index
  offset : Option ConstantExpression
  desc : ElementListDesc
deriving DecidableEq

/-- Modelled from the spec: `ElementSegment::elemtype()` lives in a binary
header that is not under `src/`; per the data model (§3) an index-form list
carries function references, so its element type is `Funcref`, and an
expression-form list carries its stated element type. -/
def ElementSegment.elemtype (value : ElementSegment) : ReferenceType :=
  match value.desc with
  | ElementListDesc.indexes _ _ => ReferenceType.Funcref
  | ElementListDesc.expressions t _ => t

/-- Import descriptor (`Import::desc`, a variant in the source headers). -/
inductive ImportDesc
  | Function (index : Index)
  | Table (table_type : TableType)
  | Memory (memory_type : MemoryType)
  | Global (global_type : GlobalType)
  | Event (event_type : EventType)
deriving DecidableEq

structure Import where
  module : String
  name : String
  desc : ImportDesc
deriving DecidableEq

structure Locals where
  count : Nat
  type : ValueType
deriving DecidableEq

/-- Embeds `binary::Code` (`src/unnamed/part_000` shows its two fields): locals and
an opaque body byte range, modelled as raw bytes.  The code/expression
validator that consumes the body is not under `src/`, so theorems about the
module validator quantify over the code-entry validator. -/
structure Code where
  locals : List Locals
  body : List Nat
deriving DecidableEq

/-- Modelled from the spec: the feature-flag set (§6); the features header is
not under `src/`.  Only the accessors the validator consults appear, plus
`multi_memory_enabled`, which §6 lists among the feature flags. -/
structure Features where
  mutable_globals_enabled : Bool
  multi_value_enabled : Bool
  reference_types_enabled : Bool
  threads_enabled : Bool
  multi_memory_enabled : Bool
deriving DecidableEq

/-- The validation context (§4.4; `wasp/valid/context.h` is not under `src/`,
its fields are pinned by their uses in the validator). -/
structure Context where
  features : Features
  types : List TypeEntry
  functions : List Function
  tables : List TableType
  memories : List MemoryType
  globals : List GlobalType
  events : List EventType
  element_segments : List ReferenceType
  imported_function_count : Nat
  imported_global_count : Nat
  export_names : List String
  declared_data_count : Option Nat
  declared_functions : List Index
  deferred_function_references : List Index
  errors : List String
deriving DecidableEq

/-- Embeds `Errors::OnError`: append one diagnostic message. -/
def OnError (ctx : Context) (msg : String) : Context :=
  { ctx with errors := ctx.errors ++ [msg] }

/-- Embeds `std::set` insert: add the element only when absent. -/
def insertIndexSet (s : List Index) (i : Index) : List Index :=
  if i ∈ s then s else s ++ [i]

/-- Embeds `std::set<string_view>` insert for `export_names`. -/
def insertNameSet (s : List String) (n : String) : List String :=
  if n ∈ s then s else s ++ [n]

def valueTypeStr : ValueType → String
  | ValueType.I32 => "i32"
  | ValueType.I64 => "i64"
  | ValueType.F32 => "f32"
  | ValueType.F64 => "f64"
  | ValueType.V128 => "v128"
  | ValueType.Funcref => "funcref"
  | ValueType.Externref => "externref"
  | ValueType.Nullref => "nullref"

def refTypeStr : ReferenceType → String
  | ReferenceType.Funcref => "funcref"
  | ReferenceType.Externref => "externref"
  | ReferenceType.Nullref => "nullref"

/-- Placeholder for `context.globals[index]` out-of-bounds reads; every read
in the source is guarded by an index check, so the placeholder is never the
value actually read in a guarded path. -/
def defaultGlobalType : GlobalType := ⟨ValueType.I32, Mutability.Const⟩

def defaultTypeEntry : TypeEntry := ⟨⟨[], []⟩⟩

def defaultFunction : Function := ⟨0⟩

/-- Embeds `ValidateIndex(index, max, desc, context)`. -/
def ValidateIndex (index : Index) (max : Index) (desc : String)
    (ctx : Context) : Bool × Context :=
  if index ≥ max then
    (false,
     OnError ctx ("Invalid " ++ desc ++ " " ++ toString index ++
       ", must be less than " ++ toString max))
  else
    (true, ctx)

/-- Embeds `Validate(At<ValueType> actual, ValueType expected, Context&)`. -/
def Validate_value_type (actual : ValueType) (expected : ValueType)
    (ctx : Context) : Bool × Context :=
  if expected ≠ actual then
    (false,
     OnError ctx ("Expected value type " ++ valueTypeStr expected ++
       ", got " ++ valueTypeStr actual))
  else
    (true, ctx)

/-- Embeds `Validate(At<ReferenceType> actual, ReferenceType expected, Context&)`. -/
def Validate_reference_type (actual : ReferenceType)
    (expected : ReferenceType) (ctx : Context) : Bool × Context :=
  if actual ≠ expected then
    (false,
     OnError ctx ("Expected element type " ++ refTypeStr expected ++
       ", got " ++ refTypeStr actual))
  else
    (true, ctx)

/-- Embeds `Validate(At<binary::ConstantExpression>, kind, expected_type,
max_global_index, Context&)`. -/
def Validate_constant_expression (value : ConstantExpression)
    (kind : ConstantExpressionKind) (expected_type : ValueType)
    (max_global_index : Index) (ctx : Context) : Bool × Context :=
  match value.instructions with
  | [instruction] =>
    match instruction with
    | Instruction.I32Const _ =>
        Validate_value_type ValueType.I32 expected_type ctx
    | Instruction.I64Const _ =>
        Validate_value_type ValueType.I64 expected_type ctx
    | Instruction.F32Const =>
        Validate_value_type ValueType.F32 expected_type ctx
    | Instruction.F64Const =>
        Validate_value_type ValueType.F64 expected_type ctx
    | Instruction.GlobalGet index =>
        let ri := ValidateIndex index max_global_index "global index" ctx
        if ri.1 then
          let global := ri.2.globals.getD index defaultGlobalType
          let actual_type := global.valtype
          if global.mutability = Mutability.Var then
            let ctx2 := OnError ri.2
              "A constant expression cannot contain a mutable global"
            let rv := Validate_value_type actual_type expected_type ctx2
            (false, rv.2)
          else
            Validate_value_type actual_type expected_type ri.2
        else
          (false, ri.2)
    | Instruction.RefNull reftype =>
        Validate_value_type (ToValueType reftype) expected_type ctx
    | Instruction.RefFunc index =>
        if kind = ConstantExpressionKind.GlobalInit then
          let deferred := ctx.deferred_function_references ++ [index]
          (true, { ctx with deferred_function_references := deferred })
        else
          let ri := ValidateIndex index ctx.functions.length "func index" ctx
          if ri.1 then
            Validate_value_type ValueType.Funcref expected_type ri.2
          else
            (false, ri.2)
    | Instruction.OtherInstr =>
        (false, OnError ctx "Invalid instruction in constant expression")
  | _ =>
      (false,
       OnError ctx "A constant expression must be a single instruction")

/-- Embeds `Validate(At<binary::DataCount>, Context&)`. -/
def Validate_data_count (value : DataCount) (ctx : Context) :
    Bool × Context :=
  (true, { ctx with declared_data_count := some value.count })

/-- Embeds `Validate(At<binary::DataSegment>, Context&)`. -/
def Validate_data_segment (value : DataSegment) (ctx : Context) :
    Bool × Context :=
  let r1 :=
    match value.memory_index with
    | some mi => ValidateIndex mi ctx.memories.length "memory index" ctx
    | none => (true, ctx)
  let r2 :=
    match value.offset with
    | some off =>
        Validate_constant_expression off ConstantExpressionKind.Other
          ValueType.I32 r1.2.globals.length r1.2
    | none => (true, r1.2)
  (r1.1 && r2.1, r2.2)

/-- Embeds `Validate(At<binary::ElementExpression>, ReferenceType, Context&)`. -/
def Validate_element_expression (value : ElementExpression)
    (reftype : ReferenceType) (ctx : Context) : Bool × Context :=
  match value.instructions with
  | [instruction] =>
    match instruction with
    | Instruction.RefNull _ =>
        Validate_reference_type ReferenceType.Funcref reftype ctx
    | Instruction.RefFunc index =>
        let ri := ValidateIndex index ctx.functions.length "function index"
          ctx
        let decl := insertIndexSet ri.2.declared_functions index
        let ctx1 := { ri.2 with declared_functions := decl }
        let rv := Validate_reference_type ReferenceType.Funcref reftype ctx1
        (ri.1 && rv.1, rv.2)
    | _ =>
        (false, OnError ctx "Invalid instruction in element expression")
  | _ =>
      (false,
       OnError ctx "An element expression must be a single instruction")

/-- Embeds `Validate(At<binary::ElementSegment>, Context&)`. -/
def Validate_element_segment (value : ElementSegment) (ctx0 : Context) :
    Bool × Context :=
  let segs := ctx0.element_segments ++ [value.elemtype]
  let ctx := { ctx0 with element_segments := segs }
  let r1 :=
    match value.table_index with
    | some ti => ValidateIndex ti ctx.tables.length "table index" ctx
    | none => (true, ctx)
  let r2 :=
    match value.offset with
    | some off =>
        Validate_constant_expression off ConstantExpressionKind.GlobalInit
          ValueType.I32 r1.2.globals.length r1.2
    | none => (true, r1.2)
  match value.desc with
  | ElementListDesc.indexes kind list =>
      let max_index :=
        match kind with
        | ExternalKind.Function => r2.2.functions.length
        | ExternalKind.Table => r2.2.tables.length
        | ExternalKind.Memory => r2.2.memories.length
        | ExternalKind.Global => r2.2.globals.length
        | ExternalKind.Event => r2.2.events.length
      list.foldl
        (fun acc index =>
          let r := ValidateIndex index max_index "index" acc.2
          let decl := insertIndexSet r.2.declared_functions index
          let c :=
            if kind = ExternalKind.Function then
              { r.2 with declared_functions := decl }
            else
              r.2
          (acc.1 && r.1, c))
        (r1.1 && r2.1, r2.2)
  | ElementListDesc.expressions elemtype list =>
      list.foldl
        (fun acc expr =>
          let r := Validate_element_expression expr elemtype acc.2
          (acc.1 && r.1, r.2))
        (r1.1 && r2.1, r2.2)

/-- Embeds `Validate(At<binary::Export>, Context&)`. -/
def Validate_export (value : Export) (ctx0 : Context) : Bool × Context :=
  let r0 :=
    if value.name ∈ ctx0.export_names then
      (false, OnError ctx0 ("Duplicate export name " ++ value.name))
    else
      (true, ctx0)
  let names := insertNameSet r0.2.export_names value.name
  let ctx := { r0.2 with export_names := names }
  match value.kind with
  | ExternalKind.Function =>
      let r := ValidateIndex value.index ctx.functions.length
        "function index" ctx
      (r0.1 && r.1, r.2)
  | ExternalKind.Table =>
      let r := ValidateIndex value.index ctx.tables.length "table index" ctx
      (r0.1 && r.1, r.2)
  | ExternalKind.Memory =>
      let r := ValidateIndex value.index ctx.memories.length "memory index"
        ctx
      (r0.1 && r.1, r.2)
  | ExternalKind.Global =>
      let r := ValidateIndex value.index ctx.globals.length "global index"
        ctx
      if r.1 then
        let global := r.2.globals.getD value.index defaultGlobalType
        if global.mutability = Mutability.Var ∧
            r.2.features.mutable_globals_enabled = false then
          (false, OnError r.2 "Mutable globals cannot be exported")
        else
          (r0.1, r.2)
      else
        (false, r.2)
  | ExternalKind.Event =>
      let r := ValidateIndex value.index ctx.events.length "event index" ctx
      (r0.1 && r.1, r.2)

/-- Embeds `Validate(At<binary::EventType>, Context&)`. -/
def Validate_event_type (value : EventType) (ctx0 : Context) :
    Bool × Context :=
  let ctx := { ctx0 with events := ctx0.events ++ [value] }
  let r := ValidateIndex value.type_index ctx.types.length
    "event type index" ctx
  if r.1 then
    let entry := r.2.types.getD value.type_index defaultTypeEntry
    if entry.type.result_types ≠ [] then
      (false, OnError r.2 "Expected an empty exception result type")
    else
      (true, r.2)
  else
    (false, r.2)

/-- Embeds `Validate(At<binary::Event>, Context&)`. -/
def Validate_event (value : Event) (ctx : Context) : Bool × Context :=
  Validate_event_type value.event_type ctx

/-- Embeds `Validate(At<binary::Function>, Context&)`. -/
def Validate_function (value : Function) (ctx0 : Context) : Bool × Context :=
  let ctx := { ctx0 with functions := ctx0.functions ++ [value] }
  ValidateIndex value.type_index ctx.types.length "function type index" ctx

/-- Embeds `Validate(At<binary::FunctionType>, Context&)`. -/
def Validate_function_type (value : FunctionType) (ctx : Context) :
    Bool × Context :=
  if value.result_types.length > 1 ∧
      ctx.features.multi_value_enabled = false then
    (false,
     OnError ctx ("Expected result type count of 0 or 1, got " ++
       toString value.result_types.length))
  else
    (true, ctx)

/-- Embeds `Validate(At<GlobalType>, Context&)`. -/
def Validate_global_type (_value : GlobalType) (ctx : Context) :
    Bool × Context :=
  (true, ctx)

/-- Embeds `Validate(At<binary::Global>, Context&)`. -/
def Validate_global (value : Global) (ctx0 : Context) : Bool × Context :=
  let ctx := { ctx0 with globals := ctx0.globals ++ [value.global_type] }
  let r1 := Validate_global_type value.global_type ctx
  let r2 := Validate_constant_expression value.init
    ConstantExpressionKind.GlobalInit value.global_type.valtype
    r1.2.imported_global_count r1.2
  (r1.1 && r2.1, r2.2)

/-- Embeds `Validate(At<Limits>, Index max, Context&)`. -/
def Validate_limits (value : Limits) (max : Index) (ctx : Context) :
    Bool × Context :=
  let r1 :=
    if value.min > max then
      (false,
       OnError ctx ("Expected minimum " ++ toString value.min ++
         " to be <= " ++ toString max))
    else
      (true, ctx)
  match value.max with
  | some m =>
      let r2 :=
        if m > max then
          (false,
           OnError r1.2 ("Expected maximum " ++ toString m ++
             " to be <= " ++ toString max))
        else
          (true, r1.2)
      let r3 :=
        if value.min > m then
          (false,
           OnError r2.2 ("Expected minimum " ++ toString value.min ++
             " to be <= maximum " ++ toString m))
        else
          (true, r2.2)
      (r1.1 && r2.1 && r3.1, r3.2)
  | none => (r1.1, r1.2)

/-- Embeds `Validate(At<MemoryType>, Context&)`: `kMaxPages = 65536`. -/
def Validate_memory_type (value : MemoryType) (ctx : Context) :
    Bool × Context :=
  let r := Validate_limits value.limits 65536 ctx
  if value.limits.shared = Shared.Yes ∧
      ctx.features.threads_enabled = false then
    (false, OnError r.2 "Memories cannot be shared")
  else
    (r.1, r.2)

/-- Embeds `Validate(At<binary::Memory>, Context&)`. -/
def Validate_memory (value : Memory) (ctx0 : Context) : Bool × Context :=
  let ctx := { ctx0 with memories := ctx0.memories ++ [value.memory_type] }
  let r := Validate_memory_type value.memory_type ctx
  if r.2.memories.length > 1 then
    (false, OnError r.2 "Too many memories, must be 1 or fewer")
  else
    (r.1, r.2)

/-- Embeds `Validate(At<binary::Start>, Context&)`. -/
def Validate_start (value : Start) (ctx : Context) : Bool × Context :=
  let r := ValidateIndex value.func_index ctx.functions.length
    "function index" ctx
  if r.1 then
    let function := r.2.functions.getD value.func_index defaultFunction
    if function.type_index < r.2.types.length then
      let type_entry := r.2.types.getD function.type_index defaultTypeEntry
      let r1 :=
        if type_entry.type.param_types.length ≠ 0 then
          (false,
           OnError r.2 ("Expected start function to have 0 params, got " ++
             toString type_entry.type.param_types.length))
        else
          (true, r.2)
      let r2 :=
        if type_entry.type.result_types.length ≠ 0 then
          (false,
           OnError r1.2 ("Expected start function to have 0 results, got " ++
             toString type_entry.type.result_types.length))
        else
          (true, r1.2)
      (r1.1 && r2.1, r2.2)
    else
      (true, r.2)
  else
    (false, r.2)

/-- Embeds `Validate(At<TableType>, Context&)`: `kMaxElements` is the largest
`u32`. -/
def Validate_table_type (value : TableType) (ctx : Context) :
    Bool × Context :=
  let r := Validate_limits value.limits 4294967295 ctx
  if value.limits.shared = Shared.Yes then
    (false, OnError r.2 "Tables cannot be shared")
  else
    (r.1, r.2)

/-- Embeds `Validate(At<binary::Table>, Context&)`. -/
def Validate_table (value : Table) (ctx0 : Context) : Bool × Context :=
  let ctx := { ctx0 with tables := ctx0.tables ++ [value.table_type] }
  let r := Validate_table_type value.table_type ctx
  if r.2.tables.length > 1 ∧
      r.2.features.reference_types_enabled = false then
    (false, OnError r.2 "Too many tables, must be 1 or fewer")
  else
    (r.1, r.2)

/-- Embeds `Validate(At<binary::TypeEntry>, Context&)`. -/
def Validate_type_entry (value : TypeEntry) (ctx0 : Context) :
    Bool × Context :=
  let ctx := { ctx0 with types := ctx0.types ++ [value] }
  Validate_function_type value.type ctx

/-- Embeds `Validate(At<binary::Import>, Context&)`. -/
def Validate_import (value : Import) (ctx : Context) : Bool × Context :=
  match value.desc with
  | ImportDesc.Function index =>
      let r := Validate_function ⟨index⟩ ctx
      let ifc := r.2.imported_function_count + 1
      (r.1, { r.2 with imported_function_count := ifc })
  | ImportDesc.Table table_type =>
      Validate_table ⟨table_type⟩ ctx
  | ImportDesc.Memory memory_type =>
      Validate_memory ⟨memory_type⟩ ctx
  | ImportDesc.Global global_type =>
      let gs := ctx.globals ++ [global_type]
      let igc := ctx.imported_global_count + 1
      let ctx1 := { ctx with globals := gs, imported_global_count := igc }
      let r := Validate_global_type global_type ctx1
      if global_type.mutability = Mutability.Var ∧
          r.2.features.mutable_globals_enabled = false then
        (false, OnError r.2 "Mutable globals cannot be imported")
      else
        (r.1, r.2)
  | ImportDesc.Event event_type =>
      Validate_event ⟨event_type⟩ ctx

/-- Embeds `EndModule(Context&)`: resolve the deferred `ref.func` references. -/
def EndModule (ctx : Context) : Bool × Context :=
  ctx.deferred_function_references.foldl
    (fun acc index =>
      if index ∈ ctx.declared_functions then
        acc
      else
        (acc.1 && false,
         OnError acc.2 ("Undeclared function reference " ++ toString index)))
    (true, ctx)

/-- Embeds `ValidateKnownSection(const std::vector<T>&, Context&)`: `valid &=`
over every entry, threading the context. -/
def ValidateKnownSectionList (f : α → Context → Bool × Context)
    (values : List α) (ctx : Context) : Bool × Context :=
  values.foldl
    (fun acc v =>
      let r := f v acc.2
      (acc.1 && r.1, r.2))
    (true, ctx)

/-- Embeds `ValidateKnownSection(const optional<T>&, Context&)`. -/
def ValidateKnownSectionOpt (f : α → Context → Bool × Context)
    (value : Option α) (ctx : Context) : Bool × Context :=
  match value with
  | some v => f v ctx
  | none => (true, ctx)

/-- Embeds `binary::Module` with the section lists `Validate(binary::Module)`
walks. -/
structure Module where
  types : List TypeEntry
  imports : List Import
  functions : List Function
  tables : List Table
  memories : List Memory
  globals : List Global
  events : List Event
  exports : List Export
  start : Option Start
  element_segments : List ElementSegment
  data_count : Option DataCount
  codes : List Code
  data_segments : List DataSegment

/-- Embeds `Validate(binary::Module, Context&)`.  `validateCode` stands for
`Validate(At<binary::Code>, Context&)`, whose body (instruction-level code
validation) is outside the validator file embedded here; the module-level
structure holds for every such per-code validator. -/
def Validate_module (validateCode : Code → Context → Bool × Context)
    (value : Module) (ctx : Context) : Bool × Context :=
  let r1 := ValidateKnownSectionList Validate_type_entry value.types ctx
  let r2 := ValidateKnownSectionList Validate_import value.imports r1.2
  let r3 := ValidateKnownSectionList Validate_function value.functions r2.2
  let r4 := ValidateKnownSectionList Validate_table value.tables r3.2
  let r5 := ValidateKnownSectionList Validate_memory value.memories r4.2
  let r6 := ValidateKnownSectionList Validate_global value.globals r5.2
  let r7 := ValidateKnownSectionList Validate_event value.events r6.2
  let r8 := ValidateKnownSectionList Validate_export value.exports r7.2
  let r9 := ValidateKnownSectionOpt Validate_start value.start r8.2
  let r10 := ValidateKnownSectionList Validate_element_segment
    value.element_segments r9.2
  let r11 := ValidateKnownSectionOpt Validate_data_count value.data_count
    r10.2
  let r12 := ValidateKnownSectionList validateCode value.codes r11.2
  let r13 := ValidateKnownSectionList Validate_data_segment
    value.data_segments r12.2
  let r14 := EndModule r13.2
  (r1.1 && r2.1 && r3.1 && r4.1 && r5.1 && r6.1 && r7.1 && r8.1 && r9.1 &&
    r10.1 && r11.1 && r12.1 && r13.1 && r14.1, r14.2)

end Wasp

namespace Wasp

/-! ## Basic lemmas about the validation helpers -/

/-- All-off feature set, used by the concrete contexts below. -/
def featuresAllOff : Features := ⟨false, false, false, false, false⟩

/-- A fresh validation context (everything empty). -/
def emptyContext : Context :=
  ⟨featuresAllOff, [], [], [], [], [], [], [], 0, 0, [], none, [], [], []⟩

theorem ValidateIndex_lt (i max : Index) (desc : String) (ctx : Context)
    (h : i < max) : ValidateIndex i max desc ctx = (true, ctx) := by
  unfold ValidateIndex
  simp [Nat.not_le.mpr h]

theorem ValidateIndex_ge (i max : Index) (desc : String) (ctx : Context)
    (h : max ≤ i) :
    ValidateIndex i max desc ctx =
      (false,
       OnError ctx ("Invalid " ++ desc ++ " " ++ toString i ++
         ", must be less than " ++ toString max)) := by
  unfold ValidateIndex
  simp [h]

theorem mem_errors_OnError {msg : String} (ctx : Context) (m : String)
    (h : msg ∈ ctx.errors) : msg ∈ (OnError ctx m).errors := by
  simp [OnError]
  exact Or.inl h

theorem self_mem_errors_OnError (ctx : Context) (m : String) :
    m ∈ (OnError ctx m).errors := by
  simp [OnError]

theorem mem_errors_ValidateIndex {msg : String} (i max : Index)
    (desc : String) (ctx : Context) (h : msg ∈ ctx.errors) :
    msg ∈ (ValidateIndex i max desc ctx).2.errors := by
  unfold ValidateIndex
  split
  · exact mem_errors_OnError ctx _ h
  · exact h

theorem mem_errors_Validate_value_type {msg : String}
    (actual expected : ValueType) (ctx : Context) (h : msg ∈ ctx.errors) :
    msg ∈ (Validate_value_type actual expected ctx).2.errors := by
  unfold Validate_value_type
  split
  · exact mem_errors_OnError ctx _ h
  · exact h

/-- Characterization of the `global.get` case of the constant-expression
validator: for ANY kind, it succeeds exactly when the index is below the
`max_global_index` argument, the referenced global is immutable, and its
value type is the expected one.  The kind never enters the bound. -/
theorem global_get_const_expr_char (i : Index)
    (kind : ConstantExpressionKind) (expected : ValueType)
    (max_global_index : Index) (ctx : Context) :
    ((Validate_constant_expression ⟨[Instruction.GlobalGet i]⟩ kind
        expected max_global_index ctx).1 = true ↔
      (i < max_global_index ∧
       (ctx.globals.getD i defaultGlobalType).mutability ≠ Mutability.Var ∧
       (ctx.globals.getD i defaultGlobalType).valtype = expected)) := by
  simp only [List.getD_eq_getElem?_getD]
  by_cases hlt : i < max_global_index
  · have hri := ValidateIndex_lt i max_global_index "global index" ctx hlt
    by_cases hvar :
        (ctx.globals[i]?.getD defaultGlobalType).mutability = Mutability.Var
    · simp [Validate_constant_expression, hri, hvar, hlt]
    · by_cases hty :
          (ctx.globals[i]?.getD defaultGlobalType).valtype = expected
      · simp [Validate_constant_expression, Validate_value_type, hri, hvar,
          hlt, hty]
      · have hty2 :
            ¬(expected = (ctx.globals[i]?.getD defaultGlobalType).valtype) :=
          fun h => hty h.symm
        simp [Validate_constant_expression, Validate_value_type, hri, hvar,
          hlt, hty, hty2]
  · have hge : max_global_index ≤ i := Nat.not_lt.mp hlt
    simp [Validate_constant_expression, ValidateIndex_ge _ _ _ _ hge, hlt]

end Wasp

namespace Wasp

/-! ## C1: which bound the `global.get` check uses -/

/-- C1 (amended): in a constant expression whose single instruction is
`global.get i`, the index bound is always the `max_global_index` argument
the caller passes, uniformly in the expression kind; in particular an
active element-segment offset, although validated with `GlobalInit` kind,
is checked against `context.globals.size()` (the caller passes that), not
against `imported_global_count`. -/
theorem global_get_bound_is_caller_argument :
    (∀ (i : Index) (kind : ConstantExpressionKind) (expected : ValueType)
        (max_global_index : Index) (ctx : Context),
      ((Validate_constant_expression ⟨[Instruction.GlobalGet i]⟩ kind
          expected max_global_index ctx).1 = true ↔
        (i < max_global_index ∧
         (ctx.globals.getD i defaultGlobalType).mutability ≠
           Mutability.Var ∧
         (ctx.globals.getD i defaultGlobalType).valtype = expected))) ∧
    (∀ (i : Index) (ctx : Context),
      ((Validate_element_segment
          ⟨none, some ⟨[Instruction.GlobalGet i]⟩,
           ElementListDesc.indexes ExternalKind.Function []⟩ ctx).1 =
          true ↔
        (i < ctx.globals.length ∧
         (ctx.globals.getD i defaultGlobalType).mutability ≠
           Mutability.Var ∧
         (ctx.globals.getD i defaultGlobalType).valtype =
           ValueType.I32))) := by
  constructor
  · exact global_get_const_expr_char
  · intro i ctx
    have h := global_get_const_expr_char i ConstantExpressionKind.GlobalInit
      ValueType.I32 ctx.globals.length
      { ctx with element_segments :=
          ctx.element_segments ++ [ReferenceType.Funcref] }
    simp [Validate_element_segment, ElementSegment.elemtype] at h ⊢
    exact h

def tableTypeC1 : TableType := ⟨⟨0, none, Shared.No⟩, ReferenceType.Funcref⟩

/-- Context with one non-imported immutable i32 global and one table. -/
def ctxC1 : Context :=
  { emptyContext with
      globals := [⟨ValueType.I32, Mutability.Const⟩],
      tables := [tableTypeC1] }

def segC1 : ElementSegment :=
  ⟨some 0, some ⟨[Instruction.GlobalGet 0]⟩,
   ElementListDesc.indexes ExternalKind.Function []⟩

/-- C1 counterexample: an active element segment whose offset is
`global.get 0` validates successfully although the context has
`imported_global_count = 0` (global 0 is module-defined, not imported), so
the claimed bound `i < imported_global_count` for `GlobalInit` kind does
not hold for element-segment offsets. -/
theorem element_segment_offset_beyond_imported_accepted :
    (Validate_element_segment segC1 ctxC1).1 = true ∧
    ctxC1.imported_global_count = 0 ∧
    segC1.offset = some ⟨[Instruction.GlobalGet 0]⟩ := by
  exact ⟨rfl, rfl, rfl⟩

/-! ## C2: mutable globals in constant expressions -/

/-- C2: a `GlobalInit` constant expression `global.get i` with `i` in range
that references a mutable (`Var`) global is reported with the
mutable-global diagnostic and fails validation. -/
theorem mutable_global_in_global_init_rejected (i : Index)
    (expected : ValueType) (max_global_index : Index) (ctx : Context)
    (hlt : i < max_global_index)
    (hvar : (ctx.globals.getD i defaultGlobalType).mutability =
      Mutability.Var) :
    (Validate_constant_expression ⟨[Instruction.GlobalGet i]⟩
        ConstantExpressionKind.GlobalInit expected max_global_index
        ctx).1 = false ∧
    "A constant expression cannot contain a mutable global" ∈
      (Validate_constant_expression ⟨[Instruction.GlobalGet i]⟩
        ConstantExpressionKind.GlobalInit expected max_global_index
        ctx).2.errors := by
  have hri := ValidateIndex_lt i max_global_index "global index" ctx hlt
  simp only [List.getD_eq_getElem?_getD] at hvar
  constructor
  · simp [Validate_constant_expression, hri, hvar]
  · simp [Validate_constant_expression, hri, hvar]
    exact mem_errors_Validate_value_type _ _ _
      (self_mem_errors_OnError ctx _)

/-- Context with one mutable i32 global. -/
def ctxC2 : Context :=
  { emptyContext with globals := [⟨ValueType.I32, Mutability.Var⟩] }

theorem mutable_global_in_global_init_rejected_witness :
    (Validate_constant_expression ⟨[Instruction.GlobalGet 0]⟩
        ConstantExpressionKind.GlobalInit ValueType.I32 1 ctxC2).1 =
      false ∧
    "A constant expression cannot contain a mutable global" ∈
      (Validate_constant_expression ⟨[Instruction.GlobalGet 0]⟩
        ConstantExpressionKind.GlobalInit ValueType.I32 1
        ctxC2).2.errors :=
  mutable_global_in_global_init_rejected 0 ValueType.I32 1 ctxC2
    (by decide) (by decide)

/-! ## C8: expressions must be a single instruction -/

/-- C8: a constant expression (and likewise an element expression) whose
instruction count differs from one is rejected with the
single-instruction error, and the result does not depend on the
instructions themselves. -/
theorem expression_not_single_instruction_rejected
    (instructions : List Instruction) (kind : ConstantExpressionKind)
    (expected : ValueType) (max_global_index : Index)
    (reftype : ReferenceType) (ctx : Context)
    (h : instructions.length ≠ 1) :
    Validate_constant_expression ⟨instructions⟩ kind expected
        max_global_index ctx =
      (false,
       OnError ctx "A constant expression must be a single instruction") ∧
    Validate_element_expression ⟨instructions⟩ reftype ctx =
      (false,
       OnError ctx "An element expression must be a single instruction") := by
  match instructions with
  | [] => exact ⟨rfl, rfl⟩
  | [x] => simp at h
  | x :: y :: rest => exact ⟨rfl, rfl⟩

theorem expression_not_single_instruction_rejected_witness :
    Validate_constant_expression ⟨[]⟩ ConstantExpressionKind.Other
        ValueType.I32 0 emptyContext =
      (false,
       OnError emptyContext
         "A constant expression must be a single instruction") ∧
    Validate_element_expression ⟨[]⟩ ReferenceType.Funcref emptyContext =
      (false,
       OnError emptyContext
         "An element expression must be a single instruction") :=
  expression_not_single_instruction_rejected [] ConstantExpressionKind.Other
    ValueType.I32 0 ReferenceType.Funcref emptyContext (by decide)

/-! ## C10: start validator when the function's type index is out of range -/

/-- C10: if the start function index is in range but the referenced
function's type index is not less than the number of declared types,
`Validate(Start)` skips the parameter/result arity checks and returns
`true` with the context unchanged (no error from the start validator). -/
theorem start_skips_checks_when_type_index_out_of_range (value : Start)
    (ctx : Context) (hfn : value.func_index < ctx.functions.length)
    (hty : ctx.types.length ≤
      (ctx.functions.getD value.func_index defaultFunction).type_index) :
    Validate_start value ctx = (true, ctx) := by
  have hri := ValidateIndex_lt value.func_index ctx.functions.length
    "function index" ctx hfn
  simp only [List.getD_eq_getElem?_getD] at hty
  simp [Validate_start, hri, Nat.not_lt.mpr hty]

/-- Context with one function whose type index 5 is out of range (no
types declared). -/
def ctxC10 : Context := { emptyContext with functions := [⟨5⟩] }

theorem start_skips_checks_when_type_index_out_of_range_witness :
    Validate_start ⟨0⟩ ctxC10 = (true, ctxC10) :=
  start_skips_checks_when_type_index_out_of_range ⟨0⟩ ctxC10 (by decide)
    (by decide)

end Wasp

namespace Wasp

/-! ## C3: deferred function references and `EndModule` -/

/-- One step of the `EndModule` loop over the deferred references. -/
def endStep (declared : List Index) (acc : Bool × Context) (index : Index) :
    Bool × Context :=
  if index ∈ declared then
    acc
  else
    (acc.1 && false,
     OnError acc.2 ("Undeclared function reference " ++ toString index))

theorem EndModule_eq (ctx : Context) :
    EndModule ctx =
      ctx.deferred_function_references.foldl
        (endStep ctx.declared_functions) (true, ctx) := rfl

theorem endmodule_fold_fst (declared : List Index) (l : List Index)
    (b : Bool) (c : Context) :
    (l.foldl (endStep declared) (b, c)).1 =
      (b && l.all (fun i => decide (i ∈ declared))) := by
  induction l generalizing b c with
  | nil => simp
  | cons x xs ih =>
      by_cases hx : x ∈ declared
      · simp [endStep, hx, ih]
      · simp [endStep, hx, ih]

theorem endmodule_fold_errors_mono (declared : List Index) (l : List Index)
    (b : Bool) (c : Context) {msg : String} (h : msg ∈ c.errors) :
    msg ∈ (l.foldl (endStep declared) (b, c)).2.errors := by
  induction l generalizing b c with
  | nil => exact h
  | cons x xs ih =>
      rw [List.foldl_cons]
      by_cases hx : x ∈ declared
      · rw [show endStep declared (b, c) x = (b, c) by simp [endStep, hx]]
        exact ih _ _ h
      · rw [show endStep declared (b, c) x =
          (b && false, OnError c ("Undeclared function reference " ++
            toString x)) by simp [endStep, hx]]
        exact ih _ _ (mem_errors_OnError c _ h)

theorem endmodule_fold_err_mem (declared : List Index) (l : List Index)
    (b : Bool) (c : Context) (i : Index) (hi : i ∈ l)
    (hn : i ∉ declared) :
    ("Undeclared function reference " ++ toString i) ∈
      (l.foldl (endStep declared) (b, c)).2.errors := by
  induction l generalizing b c with
  | nil => cases hi
  | cons x xs ih =>
      rw [List.foldl_cons]
      rcases List.mem_cons.mp hi with h1 | h2
      · subst h1
        rw [show endStep declared (b, c) i =
          (b && false, OnError c ("Undeclared function reference " ++
            toString i)) by simp [endStep, hn]]
        exact endmodule_fold_errors_mono declared xs _ _
          (self_mem_errors_OnError c _)
      · by_cases hx : x ∈ declared
        · rw [show endStep declared (b, c) x = (b, c) by
            simp [endStep, hx]]
          exact ih _ _ h2
        · rw [show endStep declared (b, c) x =
            (b && false, OnError c ("Undeclared function reference " ++
              toString x)) by simp [endStep, hx]]
          exact ih _ _ h2

/-- C3: a `ref.func i` inside a `GlobalInit` constant expression is never
checked against the function table; it is appended to the deferred list
and validation of the expression succeeds.  At end-of-module, `EndModule`
succeeds exactly when every deferred index belongs to
`declared_functions`, and every deferred index outside that set yields an
undeclared-function-reference error. -/
theorem deferred_ref_func_resolved_at_end_module :
    (∀ (i : Index) (expected : ValueType) (max_global_index : Index)
        (ctx : Context),
      Validate_constant_expression ⟨[Instruction.RefFunc i]⟩
          ConstantExpressionKind.GlobalInit expected max_global_index ctx =
        (true,
         { ctx with deferred_function_references :=
             ctx.deferred_function_references ++ [i] })) ∧
    (∀ ctx : Context,
      ((EndModule ctx).1 = true ↔
        ∀ i ∈ ctx.deferred_function_references,
          i ∈ ctx.declared_functions)) ∧
    (∀ (ctx : Context) (i : Index),
      i ∈ ctx.deferred_function_references →
        i ∉ ctx.declared_functions →
          ("Undeclared function reference " ++ toString i) ∈
            (EndModule ctx).2.errors) := by
  refine ⟨?_, ?_, ?_⟩
  · intro i expected max_global_index ctx
    rfl
  · intro ctx
    rw [EndModule_eq, endmodule_fold_fst]
    simp [List.all_eq_true]
  · intro ctx i hi hn
    rw [EndModule_eq]
    exact endmodule_fold_err_mem _ _ _ _ _ hi hn

/-! ## C5 and C9: export names -/

theorem mem_self_insertNameSet (s : List String) (n : String) :
    n ∈ insertNameSet s n := by
  unfold insertNameSet
  split
  · assumption
  · simp

theorem export_names_OnError (ctx : Context) (m : String) :
    (OnError ctx m).export_names = ctx.export_names := rfl

theorem export_names_ValidateIndex (i max : Index) (desc : String)
    (ctx : Context) :
    (ValidateIndex i max desc ctx).2.export_names = ctx.export_names := by
  unfold ValidateIndex
  split
  · rfl
  · rfl

/-- After `Validate(Export)` the export name set is the old set with the
export's name inserted, whatever the outcome of validation. -/
theorem Validate_export_names (e : Export) (ctx : Context) :
    (Validate_export e ctx).2.export_names =
      insertNameSet ctx.export_names e.name := by
  unfold Validate_export
  by_cases hdup : e.name ∈ ctx.export_names <;>
    cases e.kind <;>
      simp [hdup] <;>
        (try split_ifs) <;>
          simp [export_names_ValidateIndex, export_names_OnError,
            OnError, insertNameSet, hdup]

/-- A duplicate export name forces `Validate(Export)` to fail and to report
the duplicate-name diagnostic, whatever the export kind and index. -/
theorem Validate_export_dup_false (e : Export) (ctx : Context)
    (h : e.name ∈ ctx.export_names) :
    (Validate_export e ctx).1 = false ∧
    ("Duplicate export name " ++ e.name) ∈
      (Validate_export e ctx).2.errors := by
  have hmsg := self_mem_errors_OnError ctx ("Duplicate export name " ++ e.name)
  unfold Validate_export
  cases e.kind <;> simp [h]
  case Function => exact mem_errors_ValidateIndex _ _ _ _ hmsg
  case Table => exact mem_errors_ValidateIndex _ _ _ _ hmsg
  case Memory => exact mem_errors_ValidateIndex _ _ _ _ hmsg
  case Event => exact mem_errors_ValidateIndex _ _ _ _ hmsg
  case Global =>
    split_ifs <;>
      first
        | exact mem_errors_ValidateIndex _ _ _ _ hmsg
        | exact mem_errors_OnError _ _ (mem_errors_ValidateIndex _ _ _ _ hmsg)
        | (constructor <;>
            first
              | rfl
              | exact mem_errors_ValidateIndex _ _ _ _ hmsg
              | exact mem_errors_OnError _ _
                  (mem_errors_ValidateIndex _ _ _ _ hmsg))
end Wasp

namespace Wasp

/-- C5: an export whose name was already recorded in `export_names` (as
happens after any previously validated export with that name) is reported
as a duplicate and fails validation, for every external kind and index. -/
theorem duplicate_export_name_rejected (e : Export) (ctx : Context)
    (h : e.name ∈ ctx.export_names) :
    (Validate_export e ctx).1 = false ∧
    ("Duplicate export name " ++ e.name) ∈
      (Validate_export e ctx).2.errors :=
  Validate_export_dup_false e ctx h

/-- Context that has already recorded the export name "foo" and has one
function, so the index check alone would succeed. -/
def ctxC5 : Context :=
  { emptyContext with export_names := ["foo"], functions := [⟨0⟩] }

theorem duplicate_export_name_rejected_witness :
    (Validate_export ⟨ExternalKind.Function, "foo", 0⟩ ctxC5).1 = false ∧
    ("Duplicate export name " ++ "foo") ∈
      (Validate_export ⟨ExternalKind.Function, "foo", 0⟩ ctxC5).2.errors :=
  duplicate_export_name_rejected ⟨ExternalKind.Function, "foo", 0⟩ ctxC5
    (by decide)

/-- C9: validating an export always inserts its name into
`context.export_names` — also when validation fails — and therefore every
subsequent export with the same name fails as a duplicate. -/
theorem export_name_recorded_even_on_failure :
    (∀ (e : Export) (ctx : Context),
      e.name ∈ (Validate_export e ctx).2.export_names) ∧
    (∀ (e e2 : Export) (ctx : Context), e2.name = e.name →
      (Validate_export e2 (Validate_export e ctx).2).1 = false) := by
  constructor
  · intro e ctx
    rw [Validate_export_names]
    exact mem_self_insertNameSet _ _
  · intro e e2 ctx he
    have hm : e2.name ∈ (Validate_export e ctx).2.export_names := by
      rw [Validate_export_names, he]
      exact mem_self_insertNameSet _ _
    exact (Validate_export_dup_false e2 _ hm).1

/-! ## C6 and C7: memory types and the memory count -/

theorem Validate_limits_fst_iff (value : Limits) (max : Index)
    (ctx : Context) :
    ((Validate_limits value max ctx).1 = true ↔
      (value.min ≤ max ∧
       ∀ m, value.max = some m → (m ≤ max ∧ value.min ≤ m))) := by
  unfold Validate_limits
  cases hm : value.max with
  | none =>
      by_cases h1 : value.min > max <;> simp [hm, h1] <;> omega
  | some m =>
      by_cases h1 : value.min > max <;> by_cases h2 : m > max <;>
        by_cases h3 : value.min > m <;> simp [hm, h1, h2, h3] <;> omega

/-- C6 (amended): a memory type validates successfully exactly when its
minimum is at most 65536 pages, its maximum (when present) is at most
65536 and not below the minimum, and, when the limits are marked shared,
the threads feature is enabled.  The validator does NOT require a maximum
to be present for shared limits. -/
theorem memory_type_validation_characterization (value : MemoryType)
    (ctx : Context) :
    ((Validate_memory_type value ctx).1 = true ↔
      (value.limits.min ≤ 65536 ∧
       (∀ m, value.limits.max = some m → (m ≤ 65536 ∧ value.limits.min ≤ m)) ∧
       (value.limits.shared = Shared.Yes →
         ctx.features.threads_enabled = true))) := by
  unfold Validate_memory_type
  by_cases hs : value.limits.shared = Shared.Yes ∧
      ctx.features.threads_enabled = false
  · rw [if_pos hs]
    simp [hs.1, hs.2]
  · rw [if_neg hs]
    have hC : value.limits.shared = Shared.Yes →
        ctx.features.threads_enabled = true := by
      intro hy
      cases ht : ctx.features.threads_enabled
      · exact absurd ⟨hy, ht⟩ hs
      · rfl
    rw [Validate_limits_fst_iff]
    constructor
    · intro hab
      exact ⟨hab.1, hab.2, hC⟩
    · intro habc
      exact ⟨habc.1, habc.2.1⟩

/-- Context with the threads feature enabled and nothing declared. -/
def ctxC6 : Context :=
  { emptyContext with
      features := { featuresAllOff with threads_enabled := true } }

/-- C6 counterexample: a shared memory type with NO maximum is accepted by
the validator when the threads feature is enabled, contradicting the
claim that a shared memory type without a maximum is always rejected. -/
theorem shared_memory_without_max_accepted :
    (Validate_memory_type ⟨⟨0, none, Shared.Yes⟩⟩ ctxC6).1 = true ∧
    (⟨⟨0, none, Shared.Yes⟩⟩ : MemoryType).limits.max = none ∧
    (⟨⟨0, none, Shared.Yes⟩⟩ : MemoryType).limits.shared = Shared.Yes ∧
    ctxC6.features.threads_enabled = true := ⟨rfl, rfl, rfl, rfl⟩

theorem memories_Validate_limits (value : Limits) (max : Index)
    (ctx : Context) :
    (Validate_limits value max ctx).2.memories = ctx.memories := by
  unfold Validate_limits
  cases value.max <;> (try dsimp only) <;> split_ifs <;> rfl

theorem memories_Validate_memory_type (value : MemoryType)
    (ctx : Context) :
    (Validate_memory_type value ctx).2.memories = ctx.memories := by
  unfold Validate_memory_type
  split_ifs <;> simp [OnError, memories_Validate_limits]

/-- C7 (amended): a memory entry validated in a context that already holds
at least one memory is always rejected with the too-many-memories error;
the feature flags (in particular multi-memory) are not consulted. -/
theorem second_memory_always_rejected (value : Memory) (ctx : Context)
    (h : 1 ≤ ctx.memories.length) :
    (Validate_memory value ctx).1 = false ∧
    "Too many memories, must be 1 or fewer" ∈
      (Validate_memory value ctx).2.errors := by
  unfold Validate_memory
  have hr : (Validate_memory_type value.memory_type
      { ctx with memories := ctx.memories ++ [value.memory_type]
      }).2.memories.length > 1 := by
    rw [memories_Validate_memory_type]
    simp
    omega
  rw [if_pos hr]
  exact ⟨rfl, self_mem_errors_OnError _ _⟩

/-- Context with one memory already declared and multi-memory "enabled". -/
def ctxC7 : Context :=
  { emptyContext with
      memories := [⟨⟨0, none, Shared.No⟩⟩],
      features := { featuresAllOff with multi_memory_enabled := true } }

/-- C7 counterexample: with the multi-memory feature flag set and one
memory already present, a further memory entry is still rejected, so the
claim that it is accepted when the feature is enabled fails. -/
theorem second_memory_rejected_despite_multi_memory :
    (Validate_memory ⟨⟨⟨0, none, Shared.No⟩⟩⟩ ctxC7).1 = false ∧
    ctxC7.features.multi_memory_enabled = true ∧
    ctxC7.memories.length = 1 := ⟨rfl, rfl, rfl⟩

theorem second_memory_always_rejected_witness :
    (Validate_memory ⟨⟨⟨0, none, Shared.No⟩⟩⟩ ctxC7).1 = false ∧
    "Too many memories, must be 1 or fewer" ∈
      (Validate_memory ⟨⟨⟨0, none, Shared.No⟩⟩⟩ ctxC7).2.errors :=
  second_memory_always_rejected ⟨⟨⟨0, none, Shared.No⟩⟩⟩ ctxC7 (by decide)

end Wasp

namespace Wasp

/-! ## C4: `Validate(Module)` is the conjunction of all per-entry results -/

/-- Thread the context through every entry of a section, ignoring the
boolean results. -/
def runEntries (f : α → Context → Bool × Context) (vs : List α)
    (ctx : Context) : Context :=
  vs.foldl (fun c v => (f v c).2) ctx

/-- The per-entry boolean results of a section, each computed in the
context left behind by the previous entries (regardless of their
outcomes). -/
def entryBools (f : α → Context → Bool × Context) :
    List α → Context → List Bool
  | [], _ => []
  | v :: rest, ctx => (f v ctx).1 :: entryBools f rest (f v ctx).2

def runEntriesOpt (f : α → Context → Bool × Context) (v : Option α)
    (ctx : Context) : Context :=
  match v with
  | some x => (f x ctx).2
  | none => ctx

def entryBoolsOpt (f : α → Context → Bool × Context) (v : Option α)
    (ctx : Context) : List Bool :=
  match v with
  | some x => [(f x ctx).1]
  | none => []

theorem sectionFold_spec (f : α → Context → Bool × Context) (vs : List α)
    (b : Bool) (c : Context) :
    vs.foldl (fun acc v =>
      let r := f v acc.2
      (acc.1 && r.1, r.2)) (b, c) =
    (b && (entryBools f vs c).all (fun x => x), runEntries f vs c) := by
  induction vs generalizing b c with
  | nil => simp [entryBools, runEntries]
  | cons v rest ih =>
      rw [List.foldl_cons]
      show List.foldl (fun acc v =>
        let r := f v acc.2
        (acc.1 && r.1, r.2)) (b && (f v c).1, (f v c).2) rest = _
      rw [ih]
      simp [entryBools, runEntries, Bool.and_assoc]

theorem ValidateKnownSectionList_spec (f : α → Context → Bool × Context)
    (vs : List α) (ctx : Context) :
    ValidateKnownSectionList f vs ctx =
      ((entryBools f vs ctx).all (fun x => x), runEntries f vs ctx) := by
  unfold ValidateKnownSectionList
  rw [sectionFold_spec]
  simp

theorem ValidateKnownSectionOpt_spec (f : α → Context → Bool × Context)
    (v : Option α) (ctx : Context) :
    ValidateKnownSectionOpt f v ctx =
      ((entryBoolsOpt f v ctx).all (fun x => x),
       runEntriesOpt f v ctx) := by
  cases v <;> simp [ValidateKnownSectionOpt, entryBoolsOpt, runEntriesOpt]

/-- Every per-entry boolean of a whole module validation, in validation
order, ending with the end-of-module check.  The contexts are threaded
through every entry unconditionally, exactly as `Validate(Module)`
does. -/
def moduleEntryBools (f : Code → Context → Bool × Context) (m : Module)
    (ctx : Context) : List Bool :=
  let c1 := runEntries Validate_type_entry m.types ctx
  let c2 := runEntries Validate_import m.imports c1
  let c3 := runEntries Validate_function m.functions c2
  let c4 := runEntries Validate_table m.tables c3
  let c5 := runEntries Validate_memory m.memories c4
  let c6 := runEntries Validate_global m.globals c5
  let c7 := runEntries Validate_event m.events c6
  let c8 := runEntries Validate_export m.exports c7
  let c9 := runEntriesOpt Validate_start m.start c8
  let c10 := runEntries Validate_element_segment m.element_segments c9
  let c11 := runEntriesOpt Validate_data_count m.data_count c10
  let c12 := runEntries f m.codes c11
  let c13 := runEntries Validate_data_segment m.data_segments c12
  entryBools Validate_type_entry m.types ctx ++
  entryBools Validate_import m.imports c1 ++
  entryBools Validate_function m.functions c2 ++
  entryBools Validate_table m.tables c3 ++
  entryBools Validate_memory m.memories c4 ++
  entryBools Validate_global m.globals c5 ++
  entryBools Validate_event m.events c6 ++
  entryBools Validate_export m.exports c7 ++
  entryBoolsOpt Validate_start m.start c8 ++
  entryBools Validate_element_segment m.element_segments c9 ++
  entryBoolsOpt Validate_data_count m.data_count c10 ++
  entryBools f m.codes c11 ++
  entryBools Validate_data_segment m.data_segments c12 ++
  [(EndModule c13).1]

/-- C4: module validation returns the conjunction of the per-entry results
of every section entry followed by the end-of-module check; each entry's
result is computed in the context threaded through all earlier entries
irrespective of their outcomes, and the whole validation succeeds exactly
when every individual result is `true`.  This holds for every per-code
validator `f` (the instruction-level code validator is outside the
embedded file). -/
theorem validate_module_is_conjunction_of_entry_results
    (f : Code → Context → Bool × Context) (m : Module) (ctx : Context) :
    ((Validate_module f m ctx).1 =
      (moduleEntryBools f m ctx).all (fun b => b)) ∧
    ((Validate_module f m ctx).1 = true ↔
      ∀ b ∈ moduleEntryBools f m ctx, b = true) := by
  have h1 : (Validate_module f m ctx).1 =
      (moduleEntryBools f m ctx).all (fun b => b) := by
    unfold Validate_module moduleEntryBools
    simp only [ValidateKnownSectionList_spec, ValidateKnownSectionOpt_spec]
    simp [List.all_append, Bool.and_assoc]
  refine ⟨h1, ?_⟩
  rw [h1]
  simp [List.all_eq_true]

end Wasp
